import Mathlib

/-!
Verification of the chaoqun messaging system core against its
natural-language specification.

The definitions below are a shallow embedding of the Python source:

* `core/message_handler.py` — `MessageTask`, `FloodControl`,
  `MessageQueue._send_message` (flood-wait / generic-error retry paths),
  `RuleScheduler._check_scheduled_rules`;
* `core/proxy_manager.py` — `ProxyManager.get_next_proxy`;
* `core/session_manager.py` — `SessionManager` lifecycle
  (`load_session` / `start_session` / `stop_session` / `create_new_session`)
  together with the persisted `is_active` column of `core/database.py`;
* `ui/pages/script_page.py` — the script execution engine
  (`execute_script` preprocessing and the line parser / mention and
  reply resolution of `_run_script_loop`).

Machine time is modelled as `ℚ` (the code uses `time.time()` floats and a
rational flood-wait multiplier 1.5).  Strings handled by the script parser
are modelled as `List Char`; Python `str.strip` is modelled by
`pyStrip` using `Char.isWhitespace`.
-/

namespace Chaoqun

/-! ## Python string primitives used by the script engine -/

/-- Python `str.strip()` on a character list: drop whitespace from both
ends. -/
def pyStrip (l : List Char) : List Char :=
  ((l.dropWhile Char.isWhitespace).reverse.dropWhile Char.isWhitespace).reverse

/-- Python `s.split(sep)` for a one-character separator (no maxsplit):
splits on every occurrence, keeping empty pieces. -/
def pySplit (sep : Char) : List Char → List (List Char)
  | [] => [[]]
  | c :: rest =>
    if c = sep then [] :: pySplit sep rest
    else
      match pySplit sep rest with
      | [] => [[c]]
      | l :: ls => (c :: l) :: ls

/-- Python `s.split(sep, 1)` for a one-character separator: `none` when the
separator does not occur (Python would return a single-element list),
otherwise the pieces before and after the first occurrence. -/
def splitFirst (sep : Char) : List Char → Option (List Char × List Char)
  | [] => none
  | c :: rest =>
    if c = sep then some ([], rest)
    else (splitFirst sep rest).map (fun p => (c :: p.1, p.2))

/-- Longest leading run of decimal digits, together with the remainder. -/
def takeDigits : List Char → List Char × List Char
  | [] => ([], [])
  | c :: rest =>
    if c.isDigit then
      let p := takeDigits rest
      (c :: p.1, p.2)
    else ([], c :: rest)

/-- Numeric value of a list of decimal digits (as read by Python `int`). -/
def digitsToNat (l : List Char) : Nat :=
  l.foldl (fun n c => 10 * n + (c.toNat - 48)) 0

/-- Embedding of `re.search(r"R\[(\d+)\]", s)`: the first `R[<digits>]` marker scanning
left to right, returning its digit group. -/
def findRMarker : List Char → Option Nat
  | [] => none
  | c :: rest =>
    if c = 'R' then
      match rest with
      | '[' :: rest2 =>
        match takeDigits rest2 with
        | (d :: ds, ']' :: _) => some (digitsToNat (d :: ds))
        | _ => findRMarker rest
      | _ => findRMarker rest
    else findRMarker rest

/-- One-character-at-a-time scanner behind `findMentions`.  The state is
`none` outside a candidate match, and `some ds` (digits accumulated in
reverse) right after an `@` and its digit run so far.  A digit run is
emitted when it ends (at a non-digit or the end of input); a match
consumes its digits, and scanning resumes at the character that ended
the run, exactly as `re.findall` resumes at the end of each match. -/
def findMentionsAux : List Char → Option (List Char) → List Nat
  | [], none => []
  | [], some ds => if ds.isEmpty then [] else [digitsToNat ds.reverse]
  | c :: rest, none =>
    if c = '@' then findMentionsAux rest (some [])
    else findMentionsAux rest none
  | c :: rest, some ds =>
    if c.isDigit then findMentionsAux rest (some (c :: ds))
    else if ds.isEmpty then
      if c = '@' then findMentionsAux rest (some [])
      else findMentionsAux rest none
    else
      digitsToNat ds.reverse ::
        (if c = '@' then findMentionsAux rest (some [])
         else findMentionsAux rest none)

/-- Embedding of `re.findall(r"@(\d+)", s)`: every non-overlapping `@<digits>` match in
order, each match consuming its digits. -/
def findMentions (l : List Char) : List Nat :=
  findMentionsAux l none

/-- Embedding of `re.search(r"\[(\d+)s\]", s)`: the first `[<digits>s]` inline-delay
marker, returning its digit group. -/
def findDelay : List Char → Option Nat
  | [] => none
  | c :: rest =>
    if c = '[' then
      match takeDigits rest with
      | (d :: ds, 's' :: ']' :: _) => some (digitsToNat (d :: ds))
      | _ => findDelay rest
    else findDelay rest

/-- Suffix of `l` following the first occurrence of the substring `pat`
(Python `l[l.index(pat) + len(pat):]`); `none` when `pat` does not occur. -/
def afterSub (pat : List Char) : List Char → Option (List Char)
  | [] => if pat.isEmpty then some [] else none
  | c :: rest =>
    if pat.isPrefixOf (c :: rest) then some ((c :: rest).drop pat.length)
    else afterSub pat rest

/-! ## Send queue: `MessageTask`, `FloodControl`, `_send_message`

Embedding of `core/message_handler.py` lines 19–35 and the
error-handling paths of `MessageQueue._send_message` (lines 143–223).
-/

/-- The `MessageTask` dataclass (`message_handler.py` lines 19–28). -/
structure MessageTask where
  session_name : String
  chat_id : Int
  text : String
  reply_to_id : Option Nat := none
  created_at : ℚ := 0
  retry_count : Nat := 0
  max_retries : Nat := 3
  deriving Repr, DecidableEq

/-- The `FloodControl` dataclass (`message_handler.py` lines 30–35). -/
structure FloodControl where
  last_message_time : ℚ := 0
  message_count : Nat := 0
  flood_wait_until : ℚ := 0
  deriving Repr, DecidableEq

/-- Default `flood_wait_multiplier` from `config.py` line 36 (`1.5`). -/
def defaultFloodWaitMultiplier : ℚ := 3 / 2

/-- Result of one attempt to deliver a task, as distinguished by
`_send_message`: the client is missing or disconnected, the transport
accepted the message (returning its remote id), the platform raised
`FloodWaitError` with a wait of `w` seconds, or some other exception. -/
inductive SendResult where
  | clientUnavailable
  | sent (msgId : Nat)
  | floodWait (w : ℚ)
  | genericError
  deriving Repr, DecidableEq

/-- Outcome of `_send_message` for one task: the updated flood control,
the task put back on the queue (if any), and the duration slept before
re-enqueueing. -/
structure StepOut where
  fc : FloodControl
  requeue : Option MessageTask
  sleepBeforeRequeue : ℚ
  deriving Repr, DecidableEq

/-- The decision logic of `MessageQueue._send_message`
(`message_handler.py` lines 163–220), after the flood gate, for one
attempt with result `r` at time `now`:

* client unavailable (lines 164–171): if `retry_count < max_retries`,
  increment `retry_count`, sleep `2 ** retry_count` (the incremented
  value) and re-enqueue; otherwise return without re-enqueueing;
* success (lines 174–199): update `last_message_time` and
  `message_count`; no re-enqueue;
* `FloodWaitError` (lines 201–213): `wait_time = w * multiplier`, set
  `flood_wait_until = now + wait_time`; if `retry_count < max_retries`,
  increment it, sleep `wait_time + 1` and re-enqueue, else log a terminal
  failure and drop;
* any other exception (lines 215–220): same retry shape as the
  client-unavailable path. -/
def sendMessageStep (multiplier now : ℚ) (fc : FloodControl) (t : MessageTask)
    (r : SendResult) : StepOut :=
  match r with
  | .clientUnavailable =>
    if t.retry_count < t.max_retries then
      let t2 := { t with retry_count := t.retry_count + 1 }
      ⟨fc, some t2, (2 : ℚ) ^ t2.retry_count⟩
    else ⟨fc, none, 0⟩
  | .sent _ =>
    ⟨{ fc with last_message_time := now, message_count := fc.message_count + 1 }, none, 0⟩
  | .floodWait w =>
    let wait_time := w * multiplier
    let fc2 := { fc with flood_wait_until := now + wait_time }
    if t.retry_count < t.max_retries then
      ⟨fc2, some { t with retry_count := t.retry_count + 1 }, wait_time + 1⟩
    else ⟨fc2, none, 0⟩
  | .genericError =>
    if t.retry_count < t.max_retries then
      let t2 := { t with retry_count := t.retry_count + 1 }
      ⟨fc, some t2, (2 : ℚ) ^ t2.retry_count⟩
    else ⟨fc, none, 0⟩

/-- Trace of a task whose every attempt ends in the generic-error branch:
the list of backoff sleeps, one entry per re-enqueue, until the task is
dropped (`fuel` bounds the recursion; any fuel above `max_retries`
reaches the terminal drop). -/
def alwaysFailBackoffs : Nat → MessageTask → List ℚ
  | 0, _ => []
  | fuel + 1, t =>
    match (sendMessageStep defaultFloodWaitMultiplier 0 {} t .genericError).requeue with
    | some t2 => (sendMessageStep defaultFloodWaitMultiplier 0 {} t .genericError).sleepBeforeRequeue
        :: alwaysFailBackoffs fuel t2
    | none => []

/-! ## Rule scheduler: `RuleScheduler._check_scheduled_rules`

Embedding of `core/message_handler.py` lines 437–477.  The scheduler loop
computes `current_time` (an `"HH:MM"` string), `current_day` (weekday) and
`current_date` (day of month) and decides, per enabled scheduled rule,
whether to execute it.  For `repeat_type == "once"` it consults the
`self.scheduled_tasks` dict under the key `f"{rule['id']}_{current_time}"`;
the entry is inserted on firing (its value, an `asyncio.sleep(86400)`
task, is never inspected and the key is never deleted while the scheduler
runs), so membership alone decides suppression.  We model the marker
store as the list of inserted keys. -/

/-- The `should_execute` decision of `_check_scheduled_rules`
(lines 456–474), given the weekday `current_day` and day-of-month
`current_date` exactly as the code has them in scope, plus whether the
once-marker for this rule and time is absent from `scheduled_tasks`. -/
def shouldExecuteRule (repeat_type : String) (scheduled_times : List String)
    (current_time : String) (current_day : Nat) (current_date : Nat)
    (markerAbsent : Bool) : Bool :=
  if current_time ∈ scheduled_times then
    if repeat_type = "once" then markerAbsent
    else if repeat_type = "daily" then true
    else if repeat_type = "weekly" then true
    else if repeat_type = "monthly" then true
    else false
  else false

/-- Marker key `f"{rule['id']}_{current_time}"` (line 462). -/
def onceMarkerKey (ruleId : Nat) (current_time : String) : String :=
  toString ruleId ++ "_" ++ current_time

/-- One scheduler tick for a single `repeat_type == "once"` rule
(lines 459–466): returns whether the rule executes and the updated
marker store.  On firing, the marker key is inserted; the code never
removes it afterwards (the `asyncio.sleep(86400)` value is stored but
neither awaited for cleanup nor checked with `.done()`). -/
def onceRuleTick (markers : List String) (ruleId : Nat)
    (scheduled_times : List String) (current_time : String) : Bool × List String :=
  if current_time ∈ scheduled_times then
    let key := onceMarkerKey ruleId current_time
    if key ∈ markers then (false, markers)
    else (true, key :: markers)
  else (false, markers)

/-! ## Proxy pool: `ProxyManager.get_next_proxy`

Embedding of `core/proxy_manager.py` lines 10–16 and 42–81. -/

/-- The `ProxyInfo` dataclass (`proxy_manager.py` lines 10–16). -/
structure ProxyInfo where
  type : String
  hostname : String
  port : Nat
  username : String := ""
  password : String := ""
  deriving Repr, DecidableEq

/-- The mutable state of `ProxyManager` (`proxy_manager.py` lines 43–45). -/
structure ProxyManagerState where
  proxies : List ProxyInfo
  current_index : Nat
  deriving Repr, DecidableEq

/-- Embedding of `ProxyManager.get_next_proxy` (lines 74–81): `None` on an empty pool;
otherwise return `proxies[current_index]` and advance the index to
`(current_index + 1) % len(proxies)`. -/
def getNextProxy (st : ProxyManagerState) : Option ProxyInfo × ProxyManagerState :=
  if st.proxies.isEmpty then (none, st)
  else
    (st.proxies[st.current_index]?,
     { st with current_index := (st.current_index + 1) % st.proxies.length })

/-- Result of the `k`-th call (`0`-based) to `get_next_proxy` in a run of
consecutive calls starting from state `st` with no interleaved mutation. -/
def nthProxyCall (st : ProxyManagerState) : Nat → Option ProxyInfo
  | 0 => (getNextProxy st).1
  | k + 1 => nthProxyCall (getNextProxy st).2 k

/-! ## Session lifecycle: `SessionManager` and the persisted `is_active` flag

Embedding of `core/session_manager.py` (`active_sessions`, `load_session`
lines 215–260, `start_session` lines 262–288, `stop_session` lines
290–329, `create_new_session` lines 174–213) together with the
`sessions.is_active` column of `core/database.py`.  Persistence updates
are modelled as succeeding (the code logs and swallows their failures;
the spec scopes storage out as a collaborator that `never throw[s] past
the boundary`).  A transport client is modelled by its connection flag
only. -/

/-- A transport connection handle: all the lifecycle logic reads from it
is `is_connected()`. -/
structure Client where
  is_connected : Bool
  deriving Repr, DecidableEq

/-- Joint state of `SessionManager.active_sessions` and the persisted
`is_active` column (true entries of the association list; a session name
absent from `dbActive` reads as inactive, matching the SQLite default
`is_active BOOLEAN DEFAULT 0`). -/
structure SMState where
  active : List (String × Client)
  dbActive : List (String × Bool)
  deriving Repr, DecidableEq

/-- The persisted `is_active` flag for `name` (absent rows default to
false). -/
def SMState.isActiveFlag (st : SMState) (name : String) : Bool :=
  (st.dbActive.lookup name).getD false

/-- Embeds `UPDATE sessions SET is_active = ? WHERE session_name = ?`. -/
def setDbActive (db : List (String × Bool)) (name : String) (b : Bool) :
    List (String × Bool) :=
  (name, b) :: db.filter (fun p => !(p.1 == name))

/-- Remove `name` from the active-session map (`del self.active_sessions[session_name]`). -/
def removeActive (l : List (String × Client)) (name : String) : List (String × Client) :=
  l.filter (fun p => !(p.1 == name))

/-- Embedding of `SessionManager.load_session` (lines 215–260): return the existing
handle when one is registered; otherwise, when a persisted record exists
(`hasRecord`), construct a client `c` and register it.  On a missing
record the state is unchanged. -/
def loadSession (st : SMState) (name : String) (hasRecord : Bool) (c : Client) : SMState :=
  if (st.active.lookup name).isSome then st
  else if hasRecord then { st with active := (name, c) :: st.active } else st

/-- Embedding of `SessionManager.start_session` (lines 262–288): `load_session`, then
`client.start()` (whose success is `connectOk`; on failure the function
returns false with the loaded client still registered), then persist
`is_active = 1`. -/
def startSession (st : SMState) (name : String) (hasRecord : Bool) (c : Client)
    (connectOk : Bool) : SMState :=
  let st1 := loadSession st name hasRecord c
  if (st1.active.lookup name).isSome then
    if connectOk then { st1 with dbActive := setDbActive st1.dbActive name true }
    else st1
  else st1

/-- The guarded disconnect of `stop_session` (lines 297–306): `disconnect`
is only called when the handle reports connected, so disconnecting an
already-disconnected handle is a logged no-op rather than an error. -/
def disconnectClient (c : Client) : Client :=
  if c.is_connected then { c with is_connected := false } else c

/-- Embedding of `SessionManager.stop_session` (lines 290–329): when `name` is
registered, disconnect its handle (guarded, error-swallowed), persist
`is_active = 0`, drop the registration and return true; otherwise return
false with the state unchanged. -/
def stopSession (st : SMState) (name : String) : SMState × Bool :=
  match st.active.lookup name with
  | some _ =>
    ({ active := removeActive st.active name,
       dbActive := setDbActive st.dbActive name false }, true)
  | none => (st, false)

/-- Embedding of `SessionManager.create_new_session` (lines 174–213): persist an
initial record (`save_session` with `is_active=None`, stored as an
inactive row) and register the fresh client. -/
def createNewSession (st : SMState) (name : String) (c : Client) : SMState :=
  { active := (name, c) :: st.active,
    dbActive := setDbActive st.dbActive name false }

/-- States the session subsystem can be in.  The base case is process
start, after `core/database.py` line 159
(`UPDATE sessions SET is_active = 0`) has reset every persisted flag;
the steps are the lifecycle operations with arbitrary arguments. -/
inductive SMReachable : SMState → Prop
  | init (db : List (String × Bool)) (hdb : ∀ p ∈ db, p.2 = false) :
      SMReachable ⟨[], db⟩
  | load (st : SMState) (name : String) (hasRecord : Bool) (c : Client) :
      SMReachable st → SMReachable (loadSession st name hasRecord c)
  | start (st : SMState) (name : String) (hasRecord : Bool) (c : Client)
      (connectOk : Bool) :
      SMReachable st → SMReachable (startSession st name hasRecord c connectOk)
  | stop (st : SMState) (name : String) :
      SMReachable st → SMReachable (stopSession st name).1
  | create (st : SMState) (name : String) (c : Client) :
      SMReachable st → SMReachable (createNewSession st name c)

/-- Registry invariant: any session whose persisted flag is true has a
live registration in the active-session map. -/
def SMInv (st : SMState) : Prop :=
  ∀ name, st.isActiveFlag name = true → (st.active.lookup name).isSome

/-! ## Script engine: `ui/pages/script_page.py`

Embedding of `execute_script` (line 512 preprocessing) and the per-line
logic of `_run_script_loop` (lines 582–806).  Account dictionaries carry
the keys set up in `display_group_accounts` (lines 306–324): `name`,
`session_name`, and — when `get_me()` succeeded — `real_id`,
`real_username`, `real_first_name`.  `Option.none` models an absent or
`None`-valued key, which is exactly what the code's truthiness checks
(`if m_acc.get('real_username')`, `elif m_acc.get('real_id')`)
distinguish; Telegram usernames and first names are non-empty and ids
non-zero, so truthiness coincides with presence. -/

/-- One entry of `group_accounts` / `account_map`. -/
structure Account where
  name : String
  session_name : String
  real_first_name : Option String := none
  real_username : Option String := none
  real_id : Option Nat := none
  deriving Repr, DecidableEq

/-- Truthiness of `m_acc.get('real_username')`: present and non-empty. -/
def truthyStr : Option String → Bool
  | none => false
  | some s => !s.isEmpty

/-- Truthiness of `m_acc.get('real_id')`: present and non-zero. -/
def truthyNat : Option Nat → Bool
  | none => false
  | some n => n ≠ 0

/-- The mention text contributed by one mentioned account
(`script_page.py` lines 656–667): prefer `@<username> `, else the
markdown text-mention `[<name>](tg://user?id=<id>) `, else the plain
`@<name> ` fallback, where `<name>` is `real_first_name` defaulting to
the stored display name. -/
def mentionText (a : Account) : String :=
  let nm := a.real_first_name.getD a.name
  if truthyStr a.real_username then
    "@" ++ (a.real_username.getD "") ++ " "
  else if truthyNat a.real_id then
    "[" ++ nm ++ "](tg://user?id=" ++ toString (a.real_id.getD 0) ++ ") "
  else
    "@" ++ nm ++ " "

/-- The `prefix_text` accumulated over the resolved mentions in order
(lines 655–667). -/
def mentionTexts (l : List Account) : String :=
  l.foldl (fun s a => s ++ mentionText a) ""

/-- A parsed script line, after lines 595–623: the role number before
the first `、`, the stripped remainder `content`, and the `meta` / `body`
split on the first full-width colon.  When the line has no full-width
colon both `meta` and `body` are the whole `content` (lines 620–622). -/
structure ParsedDirective where
  role : Nat
  content : List Char
  meta : List Char
  body : List Char
  hasColon : Bool
  deriving Repr, DecidableEq

/-- Lines 595–601 and 615–623 of `_run_script_loop`: split on the first
`、` (missing separator ⇒ the line is skipped with a warning), parse the
leading role number (a non-numeric prefix raises and the line is skipped
by the surrounding handler), strip the remainder, and split it on the
first full-width colon. -/
def parseDirective (line : List Char) : Option ParsedDirective :=
  match splitFirst '、' line with
  | none => none
  | some (pre, rest) =>
    match (takeDigits (pyStrip pre)) with
    | (d :: ds, []) =>
      let role := digitsToNat (d :: ds)
      let content := pyStrip rest
      match splitFirst '：' content with
      | some (m, b) => some ⟨role, content, m, b, true⟩
      | none => some ⟨role, content, content, content, false⟩
    | _ => none

/-- Reply resolution (lines 626–633): only a line with a full-width colon
has its meta scanned for `R[<line>]`; a marker whose referenced line is
absent from `sent_messages` resolves to no reply (a warning, not an
error). -/
def resolveReply (sent : List (Nat × Nat)) (d : ParsedDirective) : Option Nat :=
  if d.hasColon then
    match findRMarker d.meta with
    | some k => sent.lookup k
    | none => none
  else none

/-- Mention resolution (lines 636–644): every `@<digits>` in the meta, in
order, kept when the role is bound in `account_map`. -/
def resolveMentions (amap : List (Nat × Account)) (d : ParsedDirective) : List Account :=
  if d.hasColon then (findMentions d.meta).filterMap (fun r => amap.lookup r) else []

/-- Inline delay (lines 647–651): the first `[<digits>s]` in the meta, in
seconds; zero when absent. -/
def inlineDelay (d : ParsedDirective) : Nat :=
  if d.hasColon then (findDelay d.meta).getD 0 else 0

/-- Attachment parsing (lines 673–698): when `IMG:` occurs in the raw
content, the stripped remainder after it is split into path and caption
on the first full-width colon, else on a plain colon when exactly one
occurs, else the whole remainder is the path.  An empty path is a parse
failure (the line falls back to a text send). -/
def parseImage (content : List Char) : Option (List Char × List Char) :=
  match afterSub ['I', 'M', 'G', ':'] content with
  | none => none
  | some rem0 =>
    let remaining := pyStrip rem0
    let pc : List Char × List Char :=
      match splitFirst '：' remaining with
      | some (p, c) => (pyStrip p, pyStrip c)
      | none =>
        if remaining.count ':' = 1 then
          match splitFirst ':' remaining with
          | some (p, c) => (pyStrip p, pyStrip c)
          | none => (pyStrip remaining, [])
        else (pyStrip remaining, [])
    if pc.1.isEmpty then none else some pc

/-- What `_run_script_loop` does with one line. -/
inductive LineOutcome where
  /-- Missing `、` separator or unparsable role number: skipped. -/
  | skipped
  /-- `account_map` has no binding for the role (lines 604–607). -/
  | missingBinding
  /-- The sender's client is absent or disconnected (lines 753–794). -/
  | notConnected
  /-- A message is handed to the transport: its final text, reply target,
  whether it is a captioned file send, and the inline delay slept. -/
  | send (text : List Char) (replyTo : Option Nat) (isFile : Bool) (delay : Nat)
  deriving Repr, DecidableEq

/-- The per-line pipeline of `_run_script_loop` (lines 594–794) for one
line: parse, look up the sender binding, resolve reply / mentions /
delay, parse and existence-check an attachment (`fileExists` abstracts
the filesystem probe on the normalised path), build the final text
(`(prefix_text + image_caption).strip()` for a file send, else
`(prefix_text + msg_content).strip()`), and send when the sender's
client is connected.  On success the caller records the remote id under
this line number (`recordSent`). -/
def processLine (amap : List (Nat × Account)) (sent : List (Nat × Nat))
    (fileExists : List Char → Bool) (connected : String → Bool)
    (line : List Char) : LineOutcome :=
  match parseDirective line with
  | none => .skipped
  | some d =>
    match amap.lookup d.role with
    | none => .missingBinding
    | some acc =>
      let replyTo := resolveReply sent d
      let mtext := mentionTexts (resolveMentions amap d)
      let img : Option (List Char × List Char) :=
        match parseImage d.content with
        | some (p, c) => if fileExists p then some (p, c) else none
        | none => none
      let finalText : List Char :=
        match img with
        | some (_, cap) => pyStrip (mtext.data ++ cap)
        | none => pyStrip (mtext.data ++ d.body)
      if connected acc.session_name then
        .send finalText replyTo img.isSome (inlineDelay d)
      else .notConnected

/-- Embeds `self.sent_messages[line_number] = sent_msg.id` (line 792). -/
def recordSent (sent : List (Nat × Nat)) (lineNumber msgId : Nat) : List (Nat × Nat) :=
  (lineNumber, msgId) :: sent

/-! ## Script preprocessing and line numbering

`execute_script` line 512:
`lines = [line.strip() for line in text.split('\n') if line.strip()]`,
and `_run_script_loop` lines 582–583:
`for index, line in enumerate(lines): line_number = index + 1`. -/

/-- Whether a physical line is blank or whitespace-only. -/
def isBlankLine (l : List Char) : Bool :=
  (pyStrip l).isEmpty

/-- The surviving, stripped lines handed to `_run_script_loop`
(line 512). -/
def execLines (text : List Char) : List (List Char) :=
  (pySplit '\n' text).filterMap
    (fun l => if (pyStrip l).isEmpty then none else some (pyStrip l))

/-- Pair each element with consecutive numbers starting at `k`. -/
def numberFrom (k : Nat) : List α → List (Nat × α)
  | [] => []
  | x :: rest => (k, x) :: numberFrom (k + 1) rest

/-- The numbered lines as executed: `line_number = index + 1` over the
surviving lines (lines 582–583). -/
def numberedLines (text : List Char) : List (Nat × List Char) :=
  numberFrom 1 (execLines text)

/-! ## Concrete instances used by the claim theorems and witnesses -/

/-- A fresh task with the default `retry_count = 0`, `max_retries = 3`. -/
def floodTask : MessageTask := { session_name := "s", chat_id := 1, text := "hi" }

/-- Scenario-B account for role 1: no handle, numeric id 555. -/
def accountA : Account := { name := "A", session_name := "sess_a", real_id := some 555 }

/-- Scenario-B account for role 2: handle `bob`. -/
def accountB : Account :=
  { name := "B", session_name := "sess_b", real_first_name := some "Bob",
    real_username := some "bob", real_id := some 777 }

/-- Scenario-B `account_map`: role 1 ↦ A, role 2 ↦ B. -/
def scenarioBMap : List (Nat × Account) := [(1, accountA), (2, accountB)]

/-- Scenario-C `account_map`: role 1 ↦ A. -/
def scenarioCMap : List (Nat × Account) := [(1, accountA)]

/-! ## Claim theorems -/

/-- C1 counterexample: the claim says a rate-limited task is
re-enqueued `after sleeping w + 1 seconds`.  At the default multiplier
1.5 with a reported wait of `w = 2` seconds and a fresh task, the code
(`message_handler.py` line 210) sleeps `wait_time + 1 = w * 1.5 + 1 = 4`
seconds, not `w + 1 = 3`. -/
theorem c1_sleep_counterexample :
    (sendMessageStep defaultFloodWaitMultiplier 0 {} floodTask
        (.floodWait 2)).requeue.isSome = true ∧
    (sendMessageStep defaultFloodWaitMultiplier 0 {} floodTask
        (.floodWait 2)).sleepBeforeRequeue ≠ 2 + 1 := by
  constructor
  · decide
  · have h : floodTask.retry_count < floodTask.max_retries := by decide
    simp only [sendMessageStep, if_pos h]
    norm_num [defaultFloodWaitMultiplier]

/-- C1 amended: on a rate-limit error reporting a wait of `w`
seconds, `_send_message` (lines 201–213) sets
`flood_wait_until = now + w * multiplier`; if `retry_count < max_retries`
it increments `retry_count`, sleeps `w * multiplier + 1` seconds (not
`w + 1`) and re-enqueues; once `retry_count` has reached `max_retries`
the task is dropped with a terminal failure log and not re-enqueued. -/
theorem c1_flood_wait_handling (mult now w : ℚ) (fc : FloodControl) (t : MessageTask) :
    (sendMessageStep mult now fc t (.floodWait w)).fc.flood_wait_until = now + w * mult ∧
    (t.retry_count < t.max_retries →
      (sendMessageStep mult now fc t (.floodWait w)).requeue
          = some { t with retry_count := t.retry_count + 1 } ∧
        (sendMessageStep mult now fc t (.floodWait w)).sleepBeforeRequeue = w * mult + 1) ∧
    (t.max_retries ≤ t.retry_count →
      (sendMessageStep mult now fc t (.floodWait w)).requeue = none) := by
  by_cases h : t.retry_count < t.max_retries <;>
    simp [sendMessageStep, h]

/-- Witness for `c1_flood_wait_handling` at the default multiplier, a
reported wait of 2 seconds and a fresh task. -/
theorem c1_flood_wait_handling_witness :
    (sendMessageStep defaultFloodWaitMultiplier 0 {} floodTask
        (.floodWait 2)).requeue
      = some { floodTask with retry_count := floodTask.retry_count + 1 } ∧
    (sendMessageStep defaultFloodWaitMultiplier 0 {} floodTask
        (.floodWait 2)).sleepBeforeRequeue = 2 * defaultFloodWaitMultiplier + 1 :=
  (c1_flood_wait_handling defaultFloodWaitMultiplier 0 2 {} floodTask).2.1 (by decide)

/-- C2: a task with `max_retries = 3` whose every attempt fails with
a generic error is re-enqueued exactly 3 times, with backoff sleeps of
`2^1 = 2`, `2^2 = 4` and `2^3 = 8` seconds (the exponent is
`retry_count` after each increment, `message_handler.py` line 219);
the fourth attempt finds `retry_count = max_retries` and is dropped with
no further re-enqueue. -/
theorem c2_generic_error_backoffs :
    alwaysFailBackoffs 10 floodTask = [2, 4, 8] ∧
    (alwaysFailBackoffs 10 floodTask).length = 3 ∧
    (sendMessageStep defaultFloodWaitMultiplier 0 {}
        { floodTask with retry_count := 3 } .genericError).requeue = none := by
  refine ⟨by decide, ?_, by decide⟩
  decide

/-- C3: for every task and every attempt result — client
unavailable, success, rate-limited, or generic error — a re-enqueued
task has `retry_count` exactly one larger than before, never exceeding
`max_retries` (which is preserved), and a task whose `retry_count` has
reached `max_retries` is never re-enqueued. -/
theorem c3_retry_count_invariant (mult now : ℚ) (fc : FloodControl)
    (t t2 : MessageTask) (r : SendResult) :
    ((sendMessageStep mult now fc t r).requeue = some t2 →
      t2.retry_count = t.retry_count + 1 ∧ t2.retry_count ≤ t.max_retries ∧
        t2.max_retries = t.max_retries) ∧
    (t.max_retries ≤ t.retry_count →
      (sendMessageStep mult now fc t r).requeue = none) := by
  cases r <;> by_cases h : t.retry_count < t.max_retries <;>
      simp [sendMessageStep, h] <;>
    (intro heq
     subst heq
     simp
     omega)

/-- Witness for `c3_retry_count_invariant`: a fresh task failing with a
generic error is re-enqueued with `retry_count = 1 ≤ 3`. -/
theorem c3_retry_count_invariant_witness :
    ({ floodTask with retry_count := 1 } : MessageTask).retry_count
        = floodTask.retry_count + 1 ∧
    ({ floodTask with retry_count := 1 } : MessageTask).retry_count
        ≤ floodTask.max_retries ∧
    ({ floodTask with retry_count := 1 } : MessageTask).max_retries
        = floodTask.max_retries :=
  (c3_retry_count_invariant defaultFloodWaitMultiplier 0 {} floodTask
      { floodTask with retry_count := 1 } .genericError).1 (by decide)

/-! ### Session-lifecycle lemmas (C6) -/

theorem lookup_filter_ne_self {β : Type} (l : List (String × β)) (name : String) :
    (l.filter (fun p => !(p.1 == name))).lookup name = none := by
  induction l with
  | nil => rfl
  | cons p rest ih =>
    by_cases hp : p.1 = name
    · have h1 : (p.1 == name) = true := beq_iff_eq.mpr hp
      simp [List.filter_cons, h1, ih]
    · have h1 : (p.1 == name) = false := beq_eq_false_iff_ne.mpr hp
      have h2 : (name == p.1) = false := beq_eq_false_iff_ne.mpr (Ne.symm hp)
      simp [List.filter_cons, h1, List.lookup, h2, ih]

theorem lookup_filter_ne_other {β : Type} (l : List (String × β)) (name n : String)
    (h : n ≠ name) :
    (l.filter (fun p => !(p.1 == name))).lookup n = l.lookup n := by
  induction l with
  | nil => rfl
  | cons p rest ih =>
    by_cases hp : p.1 = name
    · have h1 : (p.1 == name) = true := beq_iff_eq.mpr hp
      have h2 : (n == p.1) = false := by
        refine beq_eq_false_iff_ne.mpr ?_
        rw [hp]
        exact h
      simp [List.filter_cons, h1, List.lookup, h2, ih]
    · have h1 : (p.1 == name) = false := beq_eq_false_iff_ne.mpr hp
      by_cases hnp : n = p.1
      · have h2 : (n == p.1) = true := beq_iff_eq.mpr hnp
        simp [List.filter_cons, h1, List.lookup, h2]
      · have h2 : (n == p.1) = false := beq_eq_false_iff_ne.mpr hnp
        simp [List.filter_cons, h1, List.lookup, h2, ih]

theorem lookup_setDbActive_self (db : List (String × Bool)) (name : String) (b : Bool) :
    (setDbActive db name b).lookup name = some b := by
  simp [setDbActive, List.lookup]

theorem lookup_setDbActive_other (db : List (String × Bool)) (name n : String)
    (b : Bool) (h : n ≠ name) :
    (setDbActive db name b).lookup n = db.lookup n := by
  have hn : (n == name) = false := beq_eq_false_iff_ne.mpr h
  simp [setDbActive, List.lookup, hn, lookup_filter_ne_other db name n h]

theorem lookup_removeActive_self (l : List (String × Client)) (name : String) :
    (removeActive l name).lookup name = none := by
  simp [removeActive, lookup_filter_ne_self]

theorem lookup_removeActive_other (l : List (String × Client)) (name n : String)
    (h : n ≠ name) :
    (removeActive l name).lookup n = l.lookup n := by
  simp [removeActive, lookup_filter_ne_other l name n h]

theorem lookup_cons_isSome {β : Type} (l : List (String × β)) (k n : String) (v : β)
    (h : (l.lookup n).isSome = true) :
    ((((k, v)) :: l).lookup n).isSome = true := by
  by_cases hk : n = k
  · have h2 : (n == k) = true := beq_iff_eq.mpr hk
    simp [List.lookup, h2]
  · have h2 : (n == k) = false := beq_eq_false_iff_ne.mpr hk
    simp [List.lookup, h2, h]

theorem lookup_mem {β : Type} (l : List (String × β)) (n : String) (b : β)
    (h : l.lookup n = some b) : (n, b) ∈ l := by
  induction l with
  | nil => simp [List.lookup] at h
  | cons p rest ih =>
    cases p with
    | mk k v =>
      rw [List.lookup] at h
      by_cases hk : n = k
      · have h2 : (n == k) = true := beq_iff_eq.mpr hk
        rw [h2] at h
        simp at h
        rw [List.mem_cons]
        left
        simp [hk, h]
      · have h2 : (n == k) = false := beq_eq_false_iff_ne.mpr hk
        rw [h2] at h
        exact List.mem_cons_of_mem _ (ih h)

/-- `load_session` preserves the registry invariant. -/
theorem smInv_loadSession (st : SMState) (name : String) (hasRecord : Bool)
    (c : Client) (hInv : SMInv st) : SMInv (loadSession st name hasRecord c) := by
  unfold loadSession
  by_cases hact : (st.active.lookup name).isSome
  · simp [hact]
    exact hInv
  · simp [hact]
    cases hasRecord with
    | false => simpa using hInv
    | true =>
      simp
      intro n hflag
      exact lookup_cons_isSome st.active name n c (hInv n hflag)

/-- `start_session` preserves the registry invariant. -/
theorem smInv_startSession (st : SMState) (name : String) (hasRecord : Bool)
    (c : Client) (connectOk : Bool) (hInv : SMInv st) :
    SMInv (startSession st name hasRecord c connectOk) := by
  have hInv1 := smInv_loadSession st name hasRecord c hInv
  unfold startSession
  by_cases hact : ((loadSession st name hasRecord c).active.lookup name).isSome
  · cases connectOk with
    | false => simpa [hact] using hInv1
    | true =>
      simp [hact]
      intro n hflag
      by_cases hn : n = name
      · subst hn
        exact hact
      · rw [SMState.isActiveFlag] at hflag
        rw [lookup_setDbActive_other _ name n true hn] at hflag
        exact hInv1 n hflag
  · simpa [hact] using hInv1

/-- `stop_session` preserves the registry invariant. -/
theorem smInv_stopSession (st : SMState) (name : String) (hInv : SMInv st) :
    SMInv (stopSession st name).1 := by
  unfold stopSession
  cases hlk : st.active.lookup name with
  | none => simpa using hInv
  | some cl =>
    simp
    intro n hflag
    by_cases hn : n = name
    · subst hn
      rw [SMState.isActiveFlag] at hflag
      simp [lookup_setDbActive_self] at hflag
    · rw [SMState.isActiveFlag] at hflag
      rw [lookup_setDbActive_other _ name n false hn] at hflag
      have := hInv n hflag
      cases hsome : st.active.lookup n with
      | none => rw [hsome] at this; simp at this
      | some cl2 =>
        rw [lookup_removeActive_other st.active name n hn, hsome]
        simp

/-- `create_new_session` preserves the registry invariant. -/
theorem smInv_createNewSession (st : SMState) (name : String) (c : Client)
    (hInv : SMInv st) : SMInv (createNewSession st name c) := by
  unfold createNewSession
  intro n hflag
  by_cases hn : n = name
  · subst hn
    simp [List.lookup]
  · rw [SMState.isActiveFlag] at hflag
    rw [lookup_setDbActive_other _ name n false hn] at hflag
    exact lookup_cons_isSome st.active name n c (hInv n hflag)

/-- Every reachable session-manager state satisfies the registry
invariant: a session persisted as active has a live registration. -/
theorem smInv_of_reachable (st : SMState) (h : SMReachable st) : SMInv st := by
  induction h with
  | init db hdb =>
    intro n hflag
    rw [SMState.isActiveFlag] at hflag
    cases hlk : List.lookup n db with
    | none => rw [hlk] at hflag; simp at hflag
    | some b =>
      have hb := hdb (n, b) (lookup_mem db n b hlk)
      rw [hlk] at hflag
      simp at hflag
      rw [hflag] at hb
      simp at hb
  | load st name hasRecord c _ ih => exact smInv_loadSession st name hasRecord c ih
  | start st name hasRecord c connectOk _ ih =>
    exact smInv_startSession st name hasRecord c connectOk ih
  | stop st name _ ih => exact smInv_stopSession st name ih
  | create st name c _ ih => exact smInv_createNewSession st name c ih

/-- C6: in every reachable state, after `stop_session(name)` no
transport connection remains registered under `name` in
`active_sessions` and the persisted `is_active` flag for `name` reads
false; when `name` was registered the stop reports success, and in
particular stopping an already-disconnected handle is not an error (the
guarded disconnect of lines 297–306 leaves such a handle untouched and
the stop still succeeds). -/
theorem c6_stop_session_clears (st : SMState) (hreach : SMReachable st) (name : String) :
    (stopSession st name).1.active.lookup name = none ∧
    (stopSession st name).1.isActiveFlag name = false ∧
    (∀ c, st.active.lookup name = some c → (stopSession st name).2 = true) ∧
    (∀ c, st.active.lookup name = some c → c.is_connected = false →
      disconnectClient c = c ∧ (stopSession st name).2 = true) := by
  have hInv := smInv_of_reachable st hreach
  cases hlk : st.active.lookup name with
  | none =>
    refine ⟨by simp [stopSession, hlk], ?_, by simp [stopSession, hlk], ?_⟩
    · simp only [stopSession, hlk]
      by_contra hne
      have hflag : st.isActiveFlag name = true := by
        revert hne
        cases st.isActiveFlag name <;> simp
      have := hInv name hflag
      rw [hlk] at this
      simp at this
    · intro c hc
      simp at hc
  | some cl =>
    refine ⟨?_, ?_, by simp [stopSession, hlk], ?_⟩
    · simp [stopSession, hlk, lookup_removeActive_self]
    · simp [stopSession, hlk, SMState.isActiveFlag, lookup_setDbActive_self]
    · intro c hc hconn
      refine ⟨by simp [disconnectClient, hconn], by simp [stopSession, hlk]⟩

/-- Witness for `c6_stop_session_clears`: the reachable state obtained by
creating session `a` from a fresh start, then stopping it. -/
theorem c6_stop_session_clears_witness :
    (stopSession (createNewSession ⟨[], []⟩ "a" ⟨true⟩) "a").1.active.lookup "a" = none ∧
    (stopSession (createNewSession ⟨[], []⟩ "a" ⟨true⟩) "a").1.isActiveFlag "a" = false ∧
    (stopSession (createNewSession ⟨[], []⟩ "a" ⟨true⟩) "a").2 = true :=
  have hreach : SMReachable (createNewSession ⟨[], []⟩ "a" ⟨true⟩) :=
    SMReachable.create ⟨[], []⟩ "a" ⟨true⟩ (SMReachable.init [] (by simp))
  have h := c6_stop_session_clears (createNewSession ⟨[], []⟩ "a" ⟨true⟩) hreach "a"
  ⟨h.1, h.2.1, h.2.2.1 ⟨true⟩ (by simp [createNewSession, List.lookup])⟩

/-! ### Scheduler claims (C7, C8) -/

/-- C7 failing input: a `repeat_type = "once"` rule (id 7,
scheduled time `09:00`) fires on the first matching tick and inserts the
marker `7_09:00`; on a matching tick of any later day the marker is still
in `scheduled_tasks` (`_check_scheduled_rules` only tests membership and
nothing ever deletes the key — the `asyncio.sleep(86400)` value stored at
line 466 is never awaited for cleanup nor checked with `.done()`), so the
rule does not fire again, contradicting the claimed 24-hour expiry.  The
marker store is the only state consulted, so the elapsed time between the
two ticks cannot influence the second decision. -/
theorem c7_once_marker_never_expires :
    (onceRuleTick [] 7 ["09:00"] "09:00") = (true, ["7_09:00"]) ∧
    (onceRuleTick ["7_09:00"] 7 ["09:00"] "09:00").1 = false ∧
    ((onceRuleTick ["7_09:00"] 7 ["09:00"] "09:00").2 = ["7_09:00"]) := by
  refine ⟨by decide, by decide, by decide⟩

/-- C8: `_check_scheduled_rules` (lines 459–474) treats
`repeat_type = "weekly"` and `"monthly"` exactly like `"daily"`: on every
tick whose `current_time` is among the scheduled times the rule executes,
and the weekday and day-of-month in scope are never consulted, for any
repeat type.  The three repeat types are therefore behaviorally equal in
the execute decision. -/
theorem c8_weekly_monthly_equal_daily (rt : String) (sched : List String)
    (ct : String) (day date day2 date2 : Nat) (marker : Bool) :
    shouldExecuteRule "weekly" sched ct day date marker
        = shouldExecuteRule "daily" sched ct day date marker ∧
    shouldExecuteRule "monthly" sched ct day date marker
        = shouldExecuteRule "daily" sched ct day date marker ∧
    shouldExecuteRule "weekly" sched ct day date marker = decide (ct ∈ sched) ∧
    shouldExecuteRule rt sched ct day date marker
        = shouldExecuteRule rt sched ct day2 date2 marker := by
  by_cases h : ct ∈ sched <;> simp [shouldExecuteRule, h]

/-- Witness for `c8_weekly_monthly_equal_daily` at a matching tick with
differing weekday and day-of-month values. -/
theorem c8_weekly_monthly_equal_daily_witness :
    shouldExecuteRule "weekly" ["09:00"] "09:00" 0 1 true
        = shouldExecuteRule "daily" ["09:00"] "09:00" 0 1 true ∧
    shouldExecuteRule "monthly" ["09:00"] "09:00" 0 1 true
        = shouldExecuteRule "daily" ["09:00"] "09:00" 0 1 true ∧
    shouldExecuteRule "weekly" ["09:00"] "09:00" 0 1 true
        = decide ("09:00" ∈ ["09:00"]) ∧
    shouldExecuteRule "monthly" ["09:00"] "09:00" 0 1 true
        = shouldExecuteRule "monthly" ["09:00"] "09:00" 5 28 true :=
  c8_weekly_monthly_equal_daily "monthly" ["09:00"] "09:00" 0 1 5 28 true

/-! ### Proxy round-robin (C9) -/

theorem getNextProxy_fst (ps : List ProxyInfo) (i : Nat) :
    (getNextProxy ⟨ps, i⟩).1 = ps[i]? := by
  cases ps with
  | nil => simp [getNextProxy]
  | cons p rest => simp [getNextProxy]

theorem getNextProxy_snd_of_ne_nil (ps : List ProxyInfo) (i : Nat) (h : ps ≠ []) :
    (getNextProxy ⟨ps, i⟩).2 = ⟨ps, (i + 1) % ps.length⟩ := by
  cases ps with
  | nil => exact absurd rfl h
  | cons p rest => simp [getNextProxy]

/-- In a run of consecutive calls starting at index `i < N`, the `k`-th
call returns the proxy at position `(i + k) % N`. -/
theorem nthProxyCall_eq_mod (ps : List ProxyInfo) (hne : ps ≠ []) :
    ∀ (k i : Nat), i < ps.length →
      nthProxyCall ⟨ps, i⟩ k = ps[(i + k) % ps.length]? := by
  intro k
  induction k with
  | zero =>
    intro i hi
    rw [nthProxyCall, getNextProxy_fst]
    rw [Nat.add_zero, Nat.mod_eq_of_lt hi]
  | succ k ih =>
    intro i hi
    have hlen : 0 < ps.length := List.length_pos.mpr hne
    rw [nthProxyCall, getNextProxy_snd_of_ne_nil ps i hne]
    have hidx : ((i + 1) % ps.length + k) % ps.length = (i + (k + 1)) % ps.length := by
      rw [Nat.mod_add_mod]
      congr 1
      omega
    rw [ih ((i + 1) % ps.length) (Nat.mod_lt _ hlen), hidx]

/-- C9: starting from index 0 on an unmutated pool of `N` proxies,
the `k`-th of `N` consecutive `get_next_proxy` calls (`0`-based) returns
the `k`-th proxy — each proxy exactly once, in insertion order — and the
`(N+1)`-th call returns the first proxy again; on an empty pool the
getter returns `none` and leaves the state unchanged rather than
failing. -/
theorem c9_round_robin (ps : List ProxyInfo) (k : Nat) :
    (k < ps.length → nthProxyCall ⟨ps, 0⟩ k = ps[k]?) ∧
    (ps ≠ [] → nthProxyCall ⟨ps, 0⟩ ps.length = ps[0]?) ∧
    getNextProxy ⟨[], k⟩ = (none, ⟨[], k⟩) := by
  refine ⟨?_, ?_, by simp [getNextProxy]⟩
  · intro hk
    have hne : ps ≠ [] := by
      intro hnil
      rw [hnil] at hk
      simp at hk
    rw [nthProxyCall_eq_mod ps hne k 0 (by omega)]
    rw [Nat.zero_add, Nat.mod_eq_of_lt hk]
  · intro hne
    have hlen : 0 < ps.length := List.length_pos.mpr hne
    rw [nthProxyCall_eq_mod ps hne ps.length 0 (by omega)]
    rw [Nat.zero_add, Nat.mod_self]

/-- Witness for `c9_round_robin`: a three-proxy pool, third and fourth
calls. -/
theorem c9_round_robin_witness :
    nthProxyCall ⟨[⟨"socks5", "h1", 1, "", ""⟩, ⟨"socks5", "h2", 2, "", ""⟩,
        ⟨"socks5", "h3", 3, "", ""⟩], 0⟩ 2
      = [⟨"socks5", "h1", 1, "", ""⟩, ⟨"socks5", "h2", 2, "", ""⟩,
        (⟨"socks5", "h3", 3, "", ""⟩ : ProxyInfo)][2]? ∧
    nthProxyCall ⟨[⟨"socks5", "h1", 1, "", ""⟩, ⟨"socks5", "h2", 2, "", ""⟩,
        ⟨"socks5", "h3", 3, "", ""⟩], 0⟩ 3
      = [⟨"socks5", "h1", 1, "", ""⟩, ⟨"socks5", "h2", 2, "", ""⟩,
        (⟨"socks5", "h3", 3, "", ""⟩ : ProxyInfo)][0]? :=
  ⟨(c9_round_robin _ 2).1 (by decide),
   (c9_round_robin _ 3).2.1 (by decide)⟩

/-! ### Script-engine claims (C4, C5, C10) -/

/-- C4: for any line that parses, whose role is bound and whose
sender is connected, when the meta part contains a reply marker `R[K]`
(and the line carries no attachment): if the sent-line index holds an id
`X` for line `K` — as `recordSent` establishes after a successful send of
line `K` — the line is sent with `replyTo = X`; if line `K` is absent
from the index the reply resolves to none and the line is still sent as
a plain message, with the same text, rather than raising. -/
theorem c4_reply_resolution (amap : List (Nat × Account)) (sent : List (Nat × Nat))
    (fe : List Char → Bool) (conn : String → Bool) (line : List Char)
    (d : ParsedDirective) (acc : Account) (K : Nat)
    (hparse : parseDirective line = some d)
    (hrole : amap.lookup d.role = some acc)
    (hconn : conn acc.session_name = true)
    (hcolon : d.hasColon = true)
    (hR : findRMarker d.meta = some K)
    (himg : parseImage d.content = none) :
    (∀ X, sent.lookup K = some X →
      processLine amap sent fe conn line
        = .send (pyStrip ((mentionTexts (resolveMentions amap d)).data ++ d.body))
            (some X) false (inlineDelay d)) ∧
    (sent.lookup K = none →
      processLine amap sent fe conn line
        = .send (pyStrip ((mentionTexts (resolveMentions amap d)).data ++ d.body))
            none false (inlineDelay d)) ∧
    (∀ X, (recordSent sent K X).lookup K = some X) := by
  have hstep : processLine amap sent fe conn line
      = .send (pyStrip ((mentionTexts (resolveMentions amap d)).data ++ d.body))
          (sent.lookup K) false (inlineDelay d) := by
    simp only [processLine, hparse, hrole, himg, hconn, if_true]
    simp [resolveReply, hcolon, hR]
  refine ⟨fun X hX => by rw [hstep, hX], fun hX => by rw [hstep, hX], fun X => ?_⟩
  simp [recordSent, List.lookup]

/-- The parsed form of the scenario-C line `1、R[3]：thanks`. -/
def scenarioCDirective : ParsedDirective :=
  { role := 1, content := "R[3]：thanks".data, meta := "R[3]".data,
    body := "thanks".data, hasColon := true }

/-- Witness for `c4_reply_resolution`: scenario C, line `1、R[3]：thanks`
with line 3 recorded as remote id 42 (reply carried) and with line 3
never sent (reply resolves to none, message still sent). -/
theorem c4_reply_resolution_witness :
    processLine scenarioCMap (recordSent [] 3 42) (fun _ => false) (fun _ => true)
        "1、R[3]：thanks".data
      = .send (pyStrip ((mentionTexts (resolveMentions scenarioCMap
            scenarioCDirective)).data ++ scenarioCDirective.body))
          (some 42) false (inlineDelay scenarioCDirective) ∧
    processLine scenarioCMap [] (fun _ => false) (fun _ => true)
        "1、R[3]：thanks".data
      = .send (pyStrip ((mentionTexts (resolveMentions scenarioCMap
            scenarioCDirective)).data ++ scenarioCDirective.body))
          none false (inlineDelay scenarioCDirective) :=
  ⟨(c4_reply_resolution scenarioCMap (recordSent [] 3 42) (fun _ => false)
      (fun _ => true) "1、R[3]：thanks".data scenarioCDirective accountA 3
      (by decide) (by decide) rfl (by decide) (by decide) (by decide)).1 42 (by decide),
   (c4_reply_resolution scenarioCMap [] (fun _ => false)
      (fun _ => true) "1、R[3]：thanks".data scenarioCDirective accountA 3
      (by decide) (by decide) rfl (by decide) (by decide) (by decide)).2.1 (by decide)⟩

/-- C5: mention resolution prefers the `@<handle>` form when the
target account has a public handle, else the markdown text-mention keyed
by the remote numeric id, else the plain `@<displayname>` token; and for
scenario B — script line `1、@2：hello`, role 1 bound to account A (no
handle, id 555), role 2 bound to account B (handle `bob`) — the sent
text is exactly `@bob hello`, as a plain text message with no reply. -/
theorem c5_mention_resolution :
    (∀ a : Account, truthyStr a.real_username = true →
      mentionText a = "@" ++ a.real_username.getD "" ++ " ") ∧
    (∀ a : Account, truthyStr a.real_username = false → truthyNat a.real_id = true →
      mentionText a = "[" ++ a.real_first_name.getD a.name ++ "](tg://user?id="
        ++ toString (a.real_id.getD 0) ++ ") ") ∧
    (∀ a : Account, truthyStr a.real_username = false → truthyNat a.real_id = false →
      mentionText a = "@" ++ a.real_first_name.getD a.name ++ " ") ∧
    processLine scenarioBMap [] (fun _ => false) (fun _ => true) "1、@2：hello".data
      = .send "@bob hello".data none false 0 := by
  refine ⟨?_, ?_, ?_, by decide⟩
  · intro a h
    simp [mentionText, h]
  · intro a h1 h2
    simp [mentionText, h1, h2]
  · intro a h1 h2
    simp [mentionText, h1, h2]

/-- Witness for `c5_mention_resolution`: account B (handle `bob`) takes
the `@<handle>` form, account A (no handle, id 555) the text-mention
form. -/
theorem c5_mention_resolution_witness :
    mentionText accountB = "@" ++ accountB.real_username.getD "" ++ " " ∧
    mentionText accountA = "[" ++ accountA.real_first_name.getD accountA.name
      ++ "](tg://user?id=" ++ toString (accountA.real_id.getD 0) ++ ") " :=
  ⟨c5_mention_resolution.1 accountB (by decide),
   c5_mention_resolution.2.1 accountA (by decide) (by decide)⟩

/-! ### Script preprocessing (C10) -/

theorem execLines_eq_filter_map (ls : List (List Char)) :
    ls.filterMap (fun l => if (pyStrip l).isEmpty then none else some (pyStrip l))
      = (ls.filter (fun l => !(isBlankLine l))).map pyStrip := by
  induction ls with
  | nil => rfl
  | cons a rest ih =>
    simp only [isBlankLine, List.isEmpty_eq_true] at ih ⊢
    by_cases h : pyStrip a = []
    · simp [List.filterMap_cons, List.filter_cons, h, ih]
    · simp [List.filterMap_cons, List.filter_cons, h, ih]

theorem numberFrom_getElem {α : Type} (l : List α) :
    ∀ (k i : Nat), (numberFrom k l)[i]? = l[i]?.map (fun x => (k + i, x)) := by
  induction l with
  | nil =>
    intro k i
    simp [numberFrom]
  | cons a rest ih =>
    intro k i
    cases i with
    | zero => simp [numberFrom]
    | succ j =>
      simp only [numberFrom, List.getElem?_cons_succ]
      rw [ih (k + 1) j]
      have hk : k + 1 + j = k + (j + 1) := by omega
      rw [hk]

/-- C10: `execute_script` splits the script text on newlines and
discards every blank or whitespace-only line (keeping the stripped text
of the others, in order), and `_run_script_loop` then numbers the
survivors 1..N; so the `i`-th numbered entry (0-based) carries number
`i + 1` and is the stripped `i`-th non-blank physical line — line
numbers denote non-blank lines, not physical lines. -/
theorem c10_line_numbering (text : List Char) (i : Nat) :
    execLines text
      = ((pySplit '\n' text).filter (fun l => !(isBlankLine l))).map pyStrip ∧
    (∀ l, l ∈ execLines text → l.isEmpty = false) ∧
    (numberedLines text)[i]?
      = (((pySplit '\n' text).filter (fun l => !(isBlankLine l)))[i]?).map
          (fun l => (i + 1, pyStrip l)) := by
  have hpart1 : execLines text
      = ((pySplit '\n' text).filter (fun l => !(isBlankLine l))).map pyStrip :=
    execLines_eq_filter_map (pySplit '\n' text)
  refine ⟨hpart1, ?_, ?_⟩
  · intro l hl
    rw [hpart1, List.mem_map] at hl
    obtain ⟨orig, horig, rfl⟩ := hl
    rw [List.mem_filter] at horig
    have h2 := horig.2
    simp only [isBlankLine, Bool.not_eq_true'] at h2
    exact h2
  · rw [numberedLines, numberFrom_getElem, hpart1, List.getElem?_map]
    cases hx : ((pySplit '\n' text).filter (fun l => !(isBlankLine l)))[i]? with
    | none => simp
    | some l => simp [Nat.add_comm]

/-- Witness for `c10_line_numbering`: a script with a blank and a
whitespace-only physical line; the entry numbered 2 is the second
non-blank line. -/
theorem c10_line_numbering_witness :
    execLines "1、hi\n\n   \n2、yo\n".data
      = ((pySplit '\n' "1、hi\n\n   \n2、yo\n".data).filter
          (fun l => !(isBlankLine l))).map pyStrip ∧
    "2、yo".data.isEmpty = false ∧
    (numberedLines "1、hi\n\n   \n2、yo\n".data)[1]?
      = (((pySplit '\n' "1、hi\n\n   \n2、yo\n".data).filter
          (fun l => !(isBlankLine l)))[1]?).map (fun l => (1 + 1, pyStrip l)) :=
  ⟨(c10_line_numbering "1、hi\n\n   \n2、yo\n".data 1).1,
   (c10_line_numbering "1、hi\n\n   \n2、yo\n".data 1).2.1 "2、yo".data (by decide),
   (c10_line_numbering "1、hi\n\n   \n2、yo\n".data 1).2.2⟩

end Chaoqun
